import Mathlib

/-!
# Verification of the mcp-weixin-spider article-extraction contract

This file gives a shallow embedding, in Lean 4, of the pure logic of the
`mcp-weixin-spider` repository and settles the specification claims about it.

Conventions of the embedding:

* Python strings are modelled as `List Char` (`PyStr`); Python `len` is
  `List.length`, slicing `s[:n]` is `List.take`, the `in` substring test is
  `listContains`.
* Effectful code (Selenium DOM queries, `agent-browser` subprocess calls,
  HTTP image downloads, `datetime.now()`, `hashlib.md5`) is embedded by
  passing the observed results of those external calls explicitly as fields
  of an environment structure; the control flow of the Python code over
  those results is translated verbatim.
* Python exceptions are values of `PyExc` and fallible operations return
  `Except PyExc _`.
* Python `float` arithmetic (`/` and `round(_, 1)`) is idealised as exact
  rational arithmetic over `ℚ`; IEEE-754 representation error is not
  modelled.
-/

/-- A Python string, as a list of Unicode code points. -/
abbrev PyStr := List Char

/-- Python's `needle in hay` substring test. -/
def listContains (hay needle : PyStr) : Bool :=
  hay.tails.any fun t => needle.isPrefixOf t

/-! ## `sanitize_path` (src/src/mcp_weixin_spider/server.py, lines 62–72)

```python
def sanitize_path(name: str) -> str:
    sanitized = re.sub(r'[./\\]', '_', name)
    sanitized = re.sub(r'[^a-zA-Z0-9_-]', '', sanitized)
    return sanitized[:100] if sanitized else "unnamed"
```
-/

/-- A character matched by the regex class `[./\\]`
(the separators replaced by the first substitution in `sanitize_path`). -/
def isSepChar (c : Char) : Bool := c = '.' || c = '/' || c = '\\'

/-- A character matched by the regex class `[a-zA-Z0-9_-]`
(the characters kept by the second substitution in `sanitize_path`). -/
def isKeptChar (c : Char) : Bool :=
  ('a' ≤ c && c ≤ 'z') || ('A' ≤ c && c ≤ 'Z') || ('0' ≤ c && c ≤ '9')
    || c = '_' || c = '-'

/-- `sanitize_path` from `server.py`: replace `.` `/` `\` by `_`, drop every
character outside `[a-zA-Z0-9_-]`, truncate to 100 characters, and fall back
to `"unnamed"` when the filtered string is empty. -/
def sanitize_path (name : PyStr) : PyStr :=
  let s1 := name.map fun c => if isSepChar c then '_' else c
  let s2 := s1.filter isKeptChar
  if s2 ≠ [] then s2.take 100 else "unnamed".toList

/-! ## Python exceptions raised by this code base -/

/-- The exception values this code base can raise on the paths we model:
`ValueError` (URL validation), `RuntimeError` (agent-browser open failure and
anti-bot detection), and Selenium's `TimeoutException` (page-load wait).  A
`TimeoutException`'s message comes from the external driver and is not
modelled. -/
inductive PyExc where
  | valueError (msg : PyStr)
  | runtimeError (msg : PyStr)
  | timeoutException
deriving DecidableEq

/-- `type(e).__name__`, the error kind the MCP boundary reports. -/
def PyExc.typeName : PyExc → PyStr
  | .valueError _ => "ValueError".toList
  | .runtimeError _ => "RuntimeError".toList
  | .timeoutException => "TimeoutException".toList

/-- `str(e)`; the empty string stands for the unmodelled driver message. -/
def PyExc.msg : PyExc → PyStr
  | .valueError m => m
  | .runtimeError m => m
  | .timeoutException => []

deriving instance DecidableEq for Except

/-! ## The Article data model (`ArticleContent` dataclass, identical in
`weixin_spider_simple.py` and `weixin_spider_agentbrowser.py`) -/

/-- One entry of `ArticleContent.images`.  The Python dict has keys
`index`, `url`, `alt`, and gains a `local_path` key only when the image was
downloaded; the optional field models that extra key. -/
structure ImageEntry where
  index : Nat
  url : PyStr
  alt : PyStr
  local_path : Option PyStr := none
deriving DecidableEq

/-- The `ArticleContent` dataclass.  `crawl_timestamp` is produced by
`datetime.now().isoformat()` and is passed in from the environment. -/
structure ArticleContent where
  url : PyStr
  title : PyStr := []
  author : PyStr := []
  account_name : PyStr := []
  publish_date : PyStr := []
  content_html : PyStr := []
  content_text : PyStr := []
  images : List ImageEntry := []
  word_count : Nat := 0
  crawl_timestamp : PyStr := []
deriving DecidableEq

/-! ## Small Python-string helpers -/

/-- Python truthiness of an `Optional[str]`: `None` and `""` are falsy. -/
def pyTruthy : Option PyStr → Bool
  | some s => s ≠ []
  | none => false

/-- Whitespace removed by `str.strip()` (ASCII part; the Unicode space
characters also stripped by Python do not occur in this code base). -/
def isPySpace (c : Char) : Bool :=
  c = ' ' || c = '\t' || c = '\n' || c = '\r' || c = '\x0b' || c = '\x0c'

/-- Python `str.strip()`. -/
def pyStrip (s : PyStr) : PyStr :=
  ((s.dropWhile isPySpace).reverse.dropWhile isPySpace).reverse

/-! ## The regex scans used by `analyze_article`

`re.findall(r'<p[^>]*>.*?</p>', html, re.DOTALL)` and
`re.findall(r'<strong[^>]*>(.*?)</strong>', html, re.DOTALL)` are modelled by
explicit left-to-right scanners; `re.sub(r'<[^>]+>', '', s)` likewise. -/

/-- Consume `[^>]*` followed by a literal `>`; return the rest of the input,
or `none` when no `>` follows. -/
def dropToGt : PyStr → Option PyStr
  | [] => none
  | '>' :: rest => some rest
  | _ :: rest => dropToGt rest

/-- Lazy `.*?` up to the first occurrence of `closing`: returns the captured
text before `closing` and the rest of the input after it. -/
def findAfterClose (closing : PyStr) : PyStr → Option (PyStr × PyStr)
  | [] => none
  | c :: cs =>
    if closing.isPrefixOf (c :: cs) then some ([], (c :: cs).drop closing.length)
    else
      match findAfterClose closing cs with
      | some (cap, rest) => some (c :: cap, rest)
      | none => none

/-- Try to match `<p[^>]*>.*?</p>` starting exactly here; return the input
remaining after the match. -/
def matchPAt (s : PyStr) : Option PyStr :=
  if "<p".toList.isPrefixOf s then
    match dropToGt (s.drop 2) with
    | some afterOpen =>
      match findAfterClose "</p>".toList afterOpen with
      | some (_, rest) => some rest
      | none => none
    | none => none
  else none

/-- Count the non-overlapping leftmost matches of `<p[^>]*>.*?</p>`.  The
fuel argument (initialised to the input length) bounds the recursion; every
match consumes at least one character, so the fuel never runs out. -/
def countPAux : Nat → PyStr → Nat
  | 0, _ => 0
  | _ + 1, [] => 0
  | fuel + 1, c :: cs =>
    match matchPAt (c :: cs) with
    | some rest => 1 + countPAux fuel rest
    | none => countPAux fuel cs

/-- `len(re.findall(r'<p[^>]*>.*?</p>', s, re.DOTALL))`. -/
def countParagraphs (s : PyStr) : Nat := countPAux s.length s

/-- Try to match `<strong[^>]*>(.*?)</strong>` starting exactly here; return
the captured group and the input remaining after the match. -/
def matchStrongAt (s : PyStr) : Option (PyStr × PyStr) :=
  if "<strong".toList.isPrefixOf s then
    match dropToGt (s.drop 7) with
    | some afterOpen => findAfterClose "</strong>".toList afterOpen
    | none => none
  else none

/-- The captured groups of the non-overlapping leftmost matches of
`<strong[^>]*>(.*?)</strong>`, fuelled like `countPAux`. -/
def strongMatchesAux : Nat → PyStr → List PyStr
  | 0, _ => []
  | _ + 1, [] => []
  | fuel + 1, c :: cs =>
    match matchStrongAt (c :: cs) with
    | some (cap, rest) => cap :: strongMatchesAux fuel rest
    | none => strongMatchesAux fuel cs

/-- `re.findall(r'<strong[^>]*>(.*?)</strong>', s, re.DOTALL)`. -/
def strongMatches (s : PyStr) : List PyStr := strongMatchesAux s.length s

/-- Try to match `<[^>]+>` starting exactly here; return the rest. -/
def matchTagAt : PyStr → Option PyStr
  | '<' :: c :: rest => if c = '>' then none else dropToGt (c :: rest)
  | _ => none

/-- Delete the non-overlapping leftmost matches of `<[^>]+>`, fuelled. -/
def stripTagsAux : Nat → PyStr → PyStr
  | 0, s => s
  | _ + 1, [] => []
  | fuel + 1, c :: cs =>
    match matchTagAt (c :: cs) with
    | some rest => stripTagsAux fuel rest
    | none => c :: stripTagsAux fuel cs

/-- `re.sub(r'<[^>]+>', '', s)`. -/
def stripTags (s : PyStr) : PyStr := stripTagsAux s.length s

/-! ## The analyzer and summarizer (methods of `WeixinSpider` in
`weixin_spider_simple.py` and, textually identically, of `WeixinSpiderAB` in
`weixin_spider_agentbrowser.py`) -/

/-- Class constant `READING_SPEED_CPM = 200` (characters per minute). -/
def READING_SPEED_CPM : Nat := 200

/-- Class constant `MAX_KEY_PHRASE_LENGTH = 100`. -/
def MAX_KEY_PHRASE_LENGTH : Nat := 100

/-- Round half to even, to the nearest integer (the semantics of Python's
built-in `round` on an exact value). -/
def roundHalfEven (q : ℚ) : ℤ :=
  let n := ⌊q⌋
  let r := q - n
  if r < 1 / 2 then n
  else if 1 / 2 < r then n + 1
  else if n % 2 = 0 then n else n + 1

/-- Python's `round(x, 1)`, idealised over exact rationals (the binary
floating-point representation of `x` is not modelled). -/
def pyRound1 (q : ℚ) : ℚ := (roundHalfEven (q * 10) : ℚ) / 10

/-- The dict returned by `analyze_article`. -/
structure Analysis where
  word_count : Nat
  char_count : Nat
  image_count : Nat
  paragraph_count : Nat
  estimated_read_time_minutes : ℚ
  key_phrases : List PyStr
deriving DecidableEq

/-- `analyze_article` (`weixin_spider_simple.py` lines 391–436 and
`weixin_spider_agentbrowser.py` lines 304–340): paragraph count via the
`<p…>…</p>` scan, read time `round(word_count / READING_SPEED_CPM, 1)`, and
key phrases from `<strong>` spans, tag-stripped, stripped, filtered to
length `< MAX_KEY_PHRASE_LENGTH`, first 10 kept. -/
def analyze_article (article : ArticleContent) : Analysis :=
  { word_count := article.word_count
    char_count := article.content_text.length
    image_count := article.images.length
    paragraph_count :=
      if article.content_html ≠ [] then countParagraphs article.content_html else 0
    estimated_read_time_minutes :=
      pyRound1 ((article.word_count : ℚ) / (READING_SPEED_CPM : ℚ))
    key_phrases :=
      if article.content_html ≠ [] then
        (((strongMatches article.content_html).map fun m => pyStrip (stripTags m)).filter
          fun clean => clean ≠ [] && clean.length < MAX_KEY_PHRASE_LENGTH).take 10
      else [] }

/-- The dict returned by `summarize_article`. -/
structure Summary where
  title : PyStr
  account_name : PyStr
  author : PyStr
  publish_date : PyStr
  word_count : Nat
  image_count : Nat
  first_300_chars : PyStr
  url : PyStr
deriving DecidableEq

/-- `summarize_article` (`weixin_spider_simple.py` lines 438–460 and
`weixin_spider_agentbrowser.py` lines 342–353):
`content_text[:300] + "..." if len(content_text) > 300 else content_text`. -/
def summarize_article (article : ArticleContent) : Summary :=
  { title := article.title
    account_name := article.account_name
    author := article.author
    publish_date := article.publish_date
    word_count := article.word_count
    image_count := article.images.length
    first_300_chars :=
      if 300 < article.content_text.length then
        article.content_text.take 300 ++ "...".toList
      else article.content_text
    url := article.url }

/-! ## Image extraction, full-browser (Selenium) backend
(`WeixinSpider._extract_image_urls`, `weixin_spider_simple.py` lines 321–341)
-/

/-- One `<img>` element under `#js_content` as Selenium observes it:
`get_attribute` returns the attribute value or `None`. -/
structure ImgElem where
  dataSrc : Option PyStr
  src : Option PyStr
  alt : Option PyStr
deriving DecidableEq

/-- Python's `a or b` on `Optional[str]` values (`None` and `""` are falsy):
`img.get_attribute("data-src") or img.get_attribute("src")`. -/
def pyOrOpt (a b : Option PyStr) : Option PyStr :=
  match a with
  | some s => if s = [] then b else some s
  | none => b

/-- The guard `if src and not src.startswith("data:")` applied to the
resolved source of an element: decides whether the element yields an entry. -/
def includedSel (img : ImgElem) : Bool :=
  match pyOrOpt img.dataSrc img.src with
  | some s => s ≠ [] && !("data:".toList.isPrefixOf s)
  | none => false

/-- The `for i, img in enumerate(img_elements)` loop of
`_extract_image_urls`, with `i` made an explicit counter: the recorded
`index` is the position of the element among *all* `<img>` elements, whether
or not earlier elements were skipped. -/
def extractImgsAux (i : Nat) : List ImgElem → List ImageEntry
  | [] => []
  | img :: rest =>
    match pyOrOpt img.dataSrc img.src with
    | some s =>
      if s ≠ [] && !("data:".toList.isPrefixOf s) then
        { index := i, url := s, alt := img.alt.getD [] } :: extractImgsAux (i + 1) rest
      else extractImgsAux (i + 1) rest
    | none => extractImgsAux (i + 1) rest

/-- `WeixinSpider._extract_image_urls`, given the `<img>` elements found
under `#js_content`. -/
def extract_image_urls (imgs : List ImgElem) : List ImageEntry :=
  extractImgsAux 0 imgs

/-! ## Image extraction, lightweight (agent-browser) backend
(`WeixinSpiderAB._extract_image_urls`, `weixin_spider_agentbrowser.py`
lines 267–302) -/

/-- What the agent-browser CLI reports about the images of the page.
`attr i` is the outcome of `get attr "#js_content img:nth-child(i+1)"
data-src`: `none` when the command fails or yields no usable string value,
`some s` when it yields `s`.  `domSrc i` is the element's `src` attribute as
present in the DOM; the Python code never issues a query for it. -/
structure ABImgEnv where
  countOk : Bool
  count : Nat
  attr : Nat → Option PyStr
  domSrc : Nat → Option PyStr

/-- `WeixinSpiderAB._extract_image_urls`: on a successful count query, loop
`for i in range(min(count, 20))`, query only the `data-src` attribute, and
keep entries whose value is non-empty and not a `data:` placeholder. -/
def extract_image_urls_ab (env : ABImgEnv) : List ImageEntry :=
  if !env.countOk then []
  else
    (List.range (min env.count 20)).filterMap fun i =>
      match env.attr i with
      | some s =>
        if s ≠ [] && !("data:".toList.isPrefixOf s) then
          some { index := i, url := s, alt := [] }
        else none
      | none => none

/-! ## Image download (`WeixinSpider._extract_and_download_images`,
`weixin_spider_simple.py` lines 343–389) -/

/-- `os.path.join(a, b)` for the directory/file names this code builds
(`a` non-empty, not ending in a separator, `b` relative). -/
def pathJoin (a b : PyStr) : PyStr := a ++ '/' :: b

/-- Python `f"{n:03d}"`: decimal digits, zero-padded to width 3. -/
def pad3 (n : Nat) : PyStr :=
  let d := Nat.toDigits 10 n
  List.replicate (3 - d.length) '0' ++ d

/-- The extension chosen from the response's `content-type` header. -/
def extFor (ct : PyStr) : PyStr :=
  if listContains ct "jpeg".toList || listContains ct "jpg".toList then ".jpg".toList
  else if listContains ct "png".toList then ".png".toList
  else if listContains ct "gif".toList then ".gif".toList
  else if listContains ct "webp".toList then ".webp".toList
  else ".jpg".toList

/-! ## The Selenium crawl (`WeixinSpider.crawl`, `weixin_spider_simple.py`
lines 148–211) -/

/-- Everything external that one Selenium crawl observes.
`urlValid` is `_is_valid_weixin_url(url)` (the `urlparse` host check);
`hasContent` is whether the `WebDriverWait` for `#js_content` succeeds;
`query sel` is `find_element(By.CSS_SELECTOR, sel).text` (`none` models
`NoSuchElementException`); `contentHtml`/`contentText` are the `#js_content`
element's `innerHTML` and `.text` (`none` when the element lookup raises);
`downloadOk i` is whether `requests.get` for image `i` returns status 200
without raising; `downloadContentType i` is that response's content type;
`hashDirName` is `hashlib.md5(url).hexdigest()[:8]`; `timestamp` is
`datetime.now().isoformat()`. -/
structure SelPage where
  urlValid : Bool
  hasContent : Bool
  query : PyStr → Option PyStr
  contentHtml : Option PyStr
  contentText : Option PyStr
  imgs : List ImgElem
  downloadOk : Nat → Bool
  downloadContentType : Nat → PyStr
  hashDirName : PyStr
  timestamp : PyStr

/-- The shared selector-fallback loop of the `_extract_title` /
`_extract_author` / `_extract_account_name` / `_extract_publish_date`
methods: the first selector whose element exists and has non-empty stripped
text wins; otherwise the empty string. -/
def firstQueryNonEmpty (p : SelPage) : List PyStr → PyStr
  | [] => []
  | sel :: rest =>
    match p.query sel with
    | some t => if pyStrip t ≠ [] then pyStrip t else firstQueryNonEmpty p rest
    | none => firstQueryNonEmpty p rest

/-- `WeixinSpider._extract_title`. -/
def extract_title (p : SelPage) : PyStr :=
  firstQueryNonEmpty p ["h1.rich_media_title".toList, "#activity-name".toList, "h1".toList]

/-- `WeixinSpider._extract_author`. -/
def extract_author (p : SelPage) : PyStr :=
  firstQueryNonEmpty p
    ["span.rich_media_meta.rich_media_meta_text".toList, "#js_name".toList,
      ".profile_nickname".toList]

/-- `WeixinSpider._extract_account_name`. -/
def extract_account_name (p : SelPage) : PyStr :=
  firstQueryNonEmpty p
    ["#js_name".toList, ".profile_nickname".toList, "a.weui-wa-hotarea".toList]

/-- `WeixinSpider._extract_publish_date`. -/
def extract_publish_date (p : SelPage) : PyStr :=
  firstQueryNonEmpty p
    ["#publish_time".toList, "em.rich_media_meta.rich_media_meta_text".toList,
      ".rich_media_meta_list em".toList]

/-- The per-image loop of `_extract_and_download_images`: an image whose
request succeeds with status 200 gains
`local_path = os.path.join(output_dir, f"image_{index:03d}{ext}")`; a failed
request leaves the entry unchanged (failure isolated per image). -/
def downloadImages (p : SelPage) (dir : PyStr) (images : List ImageEntry) :
    List ImageEntry :=
  images.map fun img =>
    if p.downloadOk img.index then
      { img with
        local_path := some (pathJoin dir
          ("image_".toList ++ pad3 img.index ++ extFor (p.downloadContentType img.index))) }
    else img

/-- `WeixinSpider._extract_and_download_images`: extract, return early when
no image was found, default the directory to `./downloads/{md5(url)[:8]}`,
then download each image. -/
def extract_and_download_images (p : SelPage) (output_dir : Option PyStr) :
    List ImageEntry :=
  let images := extract_image_urls p.imgs
  if images = [] then images
  else
    let dir := output_dir.getD ("./downloads/".toList ++ p.hashDirName)
    downloadImages p dir images

/-- `WeixinSpider.crawl`: reject non-allow-listed hosts with `ValueError`
before any backend interaction, propagate the page-load `TimeoutException`,
then populate an `ArticleContent` field by field. -/
def crawlSel (url : PyStr) (p : SelPage) (download_images : Bool)
    (output_dir : Option PyStr) : Except PyExc ArticleContent :=
  if !p.urlValid then
    .error (.valueError ("Invalid WeChat article URL: ".toList ++ url))
  else if !p.hasContent then .error .timeoutException
  else
    let content_text := pyStrip (p.contentText.getD [])
    .ok
      { url := url
        title := extract_title p
        author := extract_author p
        account_name := extract_account_name p
        publish_date := extract_publish_date p
        content_html := p.contentHtml.getD []
        content_text := content_text
        word_count := content_text.length
        images :=
          if download_images then extract_and_download_images p output_dir
          else extract_image_urls p.imgs
        crawl_timestamp := p.timestamp }

/-! ## The agent-browser crawl (`WeixinSpiderAB.crawl`,
`weixin_spider_agentbrowser.py` lines 157–237) -/

/-- Everything external that one agent-browser crawl observes.  `text sel`
and `html sel` are the results of `_extract_text` / `_extract_html` for a
selector (already `""` when the underlying CLI call fails); `openOk` /
`openOut` are the outcome of the `open` command.  The two `wait` commands
discard their results and have no modelled effect. -/
structure ABEnv where
  urlValid : Bool
  openOk : Bool
  openOut : PyStr
  text : PyStr → PyStr
  html : PyStr → PyStr
  imgEnv : ABImgEnv
  timestamp : PyStr

/-- The anti-bot message raised by `WeixinSpiderAB.crawl` (the adjacent
string literals of the source, concatenated). -/
def antiBotMsg : PyStr :=
  ("WeChat anti-bot verification detected. " ++
    "Try: 1) Use BROWSER_STATE_FILE with saved login state, " ++
    "2) Use residential proxy, " ++
    "3) Wait and retry later").toList

/-- `"环境异常" in page_text or "完成验证" in page_text`. -/
def hasMarker (page_text : PyStr) : Bool :=
  listContains page_text "环境异常".toList || listContains page_text "完成验证".toList

/-- `WeixinSpiderAB.crawl`: validate the URL (`ValueError`), raise
`RuntimeError` when `open` fails, raise `RuntimeError` with `antiBotMsg`
when the body text carries a challenge marker, otherwise populate the
article.  Both failure paths raise the *same* exception type,
`RuntimeError`. -/
def crawlAB (url : PyStr) (env : ABEnv) : Except PyExc ArticleContent :=
  if !env.urlValid then
    .error (.valueError ("Invalid WeChat article URL: ".toList ++ url))
  else if !env.openOk then
    .error (.runtimeError ("Failed to open URL: ".toList ++ env.openOut))
  else
    let page_text := env.text "body".toList
    if hasMarker page_text then .error (.runtimeError antiBotMsg)
    else
      let title0 := env.text "h1.rich_media_title".toList
      let content_text := env.text "#js_content".toList
      .ok
        { url := url
          title := if title0 = [] then env.text "#activity-name".toList else title0
          account_name := env.text "#js_name".toList
          author := env.text ".rich_media_meta_text".toList
          publish_date := env.text "#publish_time".toList
          content_html := env.html "#js_content".toList
          content_text := content_text
          word_count := content_text.length
          images := extract_image_urls_ab env.imgEnv
          crawl_timestamp := env.timestamp }

/-! ## The MCP tool `crawl_weixin_article`
(`src/src/mcp_weixin_spider/server.py` lines 81–139) -/

/-- The JSON value the tool returns: `article.to_dict()` on success, the
`{"error": str(e), "type": type(e).__name__}` object on failure. -/
inductive ToolResult where
  | ok (article : ArticleContent)
  | err (error : PyStr) (type : PyStr)
deriving DecidableEq

/-- The observable outcome of one `crawl_weixin_article` call: the returned
JSON value together with the `output_dir` the handler computed (and passed
to `spider.crawl`). -/
structure ToolRun where
  result : ToolResult
  output_dir : Option PyStr
deriving DecidableEq

/-- `crawl_weixin_article`: the output directory is built from the sanitized
`custom_filename` only under `if download_images and custom_filename:`
(the *caller's* flag), while the spider is invoked with
`download_images and DOWNLOAD_IMAGES` (caller's flag AND the environment
flag).  Exceptions become the `{error, type}` JSON shape. -/
def crawl_weixin_article (DOWNLOAD_IMAGES : Bool) (OUTPUT_DIR : PyStr)
    (p : SelPage) (url : PyStr) (download_images : Bool)
    (custom_filename : Option PyStr) : ToolRun :=
  let output_dir : Option PyStr :=
    if download_images && pyTruthy custom_filename then
      some (pathJoin OUTPUT_DIR (sanitize_path (custom_filename.getD [])))
    else none
  match crawlSel url p (download_images && DOWNLOAD_IMAGES) output_dir with
  | .ok article => { result := .ok article, output_dir := output_dir }
  | .error e => { result := .err e.msg e.typeName, output_dir := output_dir }

/-! ## The MCP tool `compare_articles`
(`src/src/mcp_weixin_spider/server.py` lines 298–377)

`spider.crawl` is abstracted as an oracle `crawl : PyStr → Except PyStr
ArticleContent` (the error side carries `str(e)`, which is all the handler
keeps); `analyze_article` and `summarize_article` are the pure functions
embedded above. -/

/-- One element of the handler's `articles_data` list: either the dict
`{"summary": …, "analysis": …}` or the dict `{"url": …, "error": …}`. -/
inductive CompareEntry where
  | ok (summary : Summary) (analysis : Analysis)
  | err (url : PyStr) (error : PyStr)
deriving DecidableEq

/-- The membership test `"summary" in a`. -/
def hasSummary : CompareEntry → Bool
  | .ok _ _ => true
  | .err _ _ => false

/-- The membership test `"analysis" in a`. -/
def hasAnalysis : CompareEntry → Bool
  | .ok _ _ => true
  | .err _ _ => false

/-- The sort key `a["analysis"]["word_count"]`.  The handler only applies it
to entries pre-filtered by `"summary" in a`, so the `err` branch (which
would raise `KeyError` in Python) is unreachable there. -/
def entryWC : CompareEntry → Nat
  | .ok _ a => a.word_count
  | .err _ _ => 0

/-- The sort key `a["analysis"]["image_count"]`, same caveat. -/
def entryIC : CompareEntry → Nat
  | .ok _ a => a.image_count
  | .err _ _ => 0

/-- `sorted(entries, key=key, reverse=True)`: a stable sort into
non-increasing key order.  `List.insertionSort` with `key b ≤ key a` is
stable, so it computes the same list as Python's stable sort. -/
def sortDescBy (key : CompareEntry → Nat) (l : List CompareEntry) :
    List CompareEntry :=
  List.insertionSort (fun a b => key b ≤ key a) l

/-- The `"stats"` object of the comparison. -/
structure CompareStats where
  total_articles : Nat
  successfully_analyzed : Nat
  avg_word_count : ℚ
deriving DecidableEq

/-- The `"comparison"` object. -/
structure Comparison where
  by_word_count : List CompareEntry
  by_image_count : List CompareEntry
  stats : CompareStats
deriving DecidableEq

/-- The success payload `{"articles": …, "comparison": …}`. -/
structure CompareReport where
  articles : List CompareEntry
  comparison : Comparison
deriving DecidableEq

/-- The JSON value `compare_articles` returns. -/
inductive CompareResult where
  | error (msg : PyStr)
  | ok (report : CompareReport)
deriving DecidableEq

/-- The observable outcome of one `compare_articles` call: the returned
value, the URLs on which `spider.crawl` was invoked (in order), and whether
`get_spider()` ran. -/
structure CompareRun where
  result : CompareResult
  crawlCalls : List PyStr
  spiderAcquired : Bool

/-- The body of the handler's per-URL `try`/`except`: a success stores
`{"summary", "analysis"}`, a failure stores `{"url", "error": str(e)}`. -/
def compareEntryFor (crawl : PyStr → Except PyStr ArticleContent) (u : PyStr) :
    CompareEntry :=
  match crawl u with
  | .ok article => .ok (summarize_article article) (analyze_article article)
  | .error e => .err u e

/-- `compare_articles`: both length checks precede `get_spider()` and the
crawl loop; then one entry per URL is accumulated, the rankings sort the
`"summary"`-bearing entries, and `avg_word_count` divides by
`max(len(successes), 1)`. -/
def compare_articles (crawl : PyStr → Except PyStr ArticleContent)
    (urls : List PyStr) : CompareRun :=
  if urls.length < 2 then
    { result := .error "Need at least 2 URLs to compare".toList
      crawlCalls := [], spiderAcquired := false }
  else if 5 < urls.length then
    { result := .error "Maximum 5 URLs for comparison".toList
      crawlCalls := [], spiderAcquired := false }
  else
    let articles_data := urls.map (compareEntryFor crawl)
    let analyzed := articles_data.filter hasAnalysis
    { result := .ok
        { articles := articles_data
          comparison :=
            { by_word_count := sortDescBy entryWC (articles_data.filter hasSummary)
              by_image_count := sortDescBy entryIC (articles_data.filter hasSummary)
              stats :=
                { total_articles := urls.length
                  successfully_analyzed := (articles_data.filter hasSummary).length
                  avg_word_count :=
                    ((analyzed.map entryWC).sum : ℚ) / ((max analyzed.length 1 : Nat) : ℚ) } } }
      crawlCalls := urls
      spiderAcquired := true }

/-! ## Statement vocabulary for the claims about `compare_articles` -/

/-- The articles of the URLs whose crawl succeeded, in input order. -/
def successArticles (crawl : PyStr → Except PyStr ArticleContent)
    (urls : List PyStr) : List ArticleContent :=
  urls.filterMap fun u => (crawl u).toOption

/-- The error entry a URL contributes when its crawl fails (`none` when it
succeeds). -/
def errCase (crawl : PyStr → Except PyStr ArticleContent) (u : PyStr) :
    Option CompareEntry :=
  match crawl u with
  | .error e => some (.err u e)
  | .ok _ => none

/-- The success entry a URL contributes when its crawl succeeds (`none` when
it fails). -/
def okCase (crawl : PyStr → Except PyStr ArticleContent) (u : PyStr) :
    Option CompareEntry :=
  match crawl u with
  | .ok a => some (.ok (summarize_article a) (analyze_article a))
  | .error _ => none

/-- The conclusion of claim C1: for an in-bounds URL list the report always
completes, the error entries are exactly one per failing URL keyed by that
URL (in order), each ranking holds exactly the success entries, and the
average word count is the successes' total divided by
`max(#successes, 1)`. -/
def C1Concl (crawl : PyStr → Except PyStr ArticleContent)
    (urls : List PyStr) : Prop :=
  ∃ report,
    (compare_articles crawl urls).result = .ok report ∧
    report.articles.filter (fun e => !hasSummary e) = urls.filterMap (errCase crawl) ∧
    report.comparison.by_word_count.Perm (urls.filterMap (okCase crawl)) ∧
    report.comparison.by_image_count.Perm (urls.filterMap (okCase crawl)) ∧
    report.comparison.stats.successfully_analyzed =
      (urls.filterMap (okCase crawl)).length ∧
    report.comparison.stats.avg_word_count =
      ((((successArticles crawl urls).map fun a => a.word_count).sum : Nat) : ℚ) /
        ((max (successArticles crawl urls).length 1 : Nat) : ℚ)

/-- The conclusion of claim C3: an out-of-bounds URL list produces a
validation-error object, no crawl call and no spider acquisition. -/
def C3Concl (crawl : PyStr → Except PyStr ArticleContent)
    (urls : List PyStr) : Prop :=
  (compare_articles crawl urls).crawlCalls = [] ∧
  (compare_articles crawl urls).spiderAcquired = false ∧
  ∃ m, (compare_articles crawl urls).result = .error m

/-- The conclusion of claim C10: with the `DOWNLOAD_IMAGES` environment flag
false, a call with `download_images=True` still succeeds and returns the
extracted image URL entries, none of which has a `local_path`; and whenever
the caller passes `download_images=False` the computed output directory is
`None` whatever `custom_filename` says. -/
def C10Concl (OUTPUT_DIR : PyStr) (p : SelPage) (url : PyStr)
    (cf : Option PyStr) : Prop :=
  (∃ a, (crawl_weixin_article false OUTPUT_DIR p url true cf).result = .ok a ∧
    a.images = extract_image_urls p.imgs ∧
    ∀ e ∈ a.images, e.local_path = none) ∧
  (∀ DOWNLOAD_IMAGES : Bool, ∀ cf2 : Option PyStr,
    (crawl_weixin_article DOWNLOAD_IMAGES OUTPUT_DIR p url false cf2).output_dir = none)

/-! ## Spec-side definitions for claim C9

`specResolve` renders the claim's words: "the recorded image URL is taken
from the lazy-load attribute (data-src) when it is present and non-empty,
falling back to the standard src attribute otherwise".  `specPredictedAB`
is the image extraction the claim predicts for the agent-browser backend:
the same loop, but with the claimed data-src → src fallback. -/

/-- The claim's resolution rule: `data-src` when present and non-empty,
otherwise `src`. -/
def specResolve (dataSrc src : Option PyStr) : Option PyStr :=
  match dataSrc with
  | some s => if s ≠ [] then some s else src
  | none => src

/-- The claim's rule applied to the full-browser loop (compared against
`extractImgsAux`). -/
def specExtractSelAux (i : Nat) : List ImgElem → List ImageEntry
  | [] => []
  | img :: rest =>
    match specResolve img.dataSrc img.src with
    | some s =>
      if s ≠ [] && !("data:".toList.isPrefixOf s) then
        { index := i, url := s, alt := img.alt.getD [] } :: specExtractSelAux (i + 1) rest
      else specExtractSelAux (i + 1) rest
    | none => specExtractSelAux (i + 1) rest

/-- The claim's rule applied to the full-browser extraction. -/
def specExtractSel (imgs : List ImgElem) : List ImageEntry :=
  specExtractSelAux 0 imgs

/-- The claim's rule applied to the agent-browser loop: what extraction
would return if, as the claim states, it fell back to the `src` attribute
when `data-src` is absent or empty. -/
def specPredictedAB (env : ABImgEnv) : List ImageEntry :=
  if !env.countOk then []
  else
    (List.range (min env.count 20)).filterMap fun i =>
      match specResolve (env.attr i) (env.domSrc i) with
      | some s =>
        if s ≠ [] && !("data:".toList.isPrefixOf s) then
          some { index := i, url := s, alt := [] }
        else none
      | none => none

/-! ## Concrete fixtures for counterexamples and witnesses -/

/-- A concrete short-text article used to witness C5. -/
def artShort : ArticleContent :=
  { url := "https://mp.weixin.qq.com/s/x".toList
    content_text := "hello".toList
    word_count := 5 }

/-- An image environment with no successful queries. -/
def emptyABImgEnv : ABImgEnv :=
  { countOk := false, count := 0, attr := fun _ => none, domSrc := fun _ => none }

/-- An agent-browser page whose body text carries the challenge marker
`环境异常`. -/
def blockedEnv : ABEnv :=
  { urlValid := true, openOk := true, openOut := []
    text := fun sel => if sel = "body".toList then "环境异常".toList else []
    html := fun _ => [], imgEnv := emptyABImgEnv, timestamp := [] }

/-- An agent-browser page whose `open` command fails (backend error). -/
def openFailEnv : ABEnv :=
  { urlValid := true, openOk := false, openOut := "boom".toList
    text := fun _ => [], html := fun _ => []
    imgEnv := emptyABImgEnv, timestamp := [] }

/-- Two `<img>` elements of which the first is skipped (its only source is
an inline `data:` placeholder): the C7 counterexample. -/
def c7Imgs : List ImgElem :=
  [{ dataSrc := none, src := some "data:image/png;base64,AAAA".toList, alt := none },
   { dataSrc := some "http://mmbiz.qpic.cn/a".toList, src := none, alt := none }]

/-- A Selenium page holding the two `c7Imgs` elements and nothing else. -/
def c7Page : SelPage :=
  { urlValid := true, hasContent := true, query := fun _ => none
    contentHtml := some [], contentText := some [], imgs := c7Imgs
    downloadOk := fun _ => false, downloadContentType := fun _ => []
    hashDirName := [], timestamp := [] }

/-- The article a crawl of `c7Page` produces. -/
def c7Article : ArticleContent :=
  { url := "https://mp.weixin.qq.com/s/x".toList
    images := [{ index := 1, url := "http://mmbiz.qpic.cn/a".toList, alt := [] }] }

/-- Two `<img>` elements that are both kept: the C7 witness input. -/
def c7GoodImgs : List ImgElem :=
  [{ dataSrc := some "http://mmbiz.qpic.cn/a".toList, src := none, alt := none },
   { dataSrc := none, src := some "http://mmbiz.qpic.cn/b".toList, alt := none }]

/-- The C9 counterexample environment: `data-src` is empty while the DOM
`src` attribute holds a real URL the code never reads. -/
def c9Env : ABImgEnv :=
  { countOk := true, count := 1, attr := fun _ => some []
    domSrc := fun _ => some "http://mmbiz.qpic.cn/x".toList }

/-- The C9 witness environment: a single image with a real `data-src`. -/
def c9WEnv : ABImgEnv :=
  { countOk := true, count := 1, attr := fun _ => some "http://mmbiz.qpic.cn/y".toList
    domSrc := fun _ => none }

/-- The entry the C9 witness environment yields. -/
def c9WEntry : ImageEntry :=
  { index := 0, url := "http://mmbiz.qpic.cn/y".toList, alt := [] }

/-- A crawled article used by the C1 witness. -/
def artA : ArticleContent :=
  { url := "https://mp.weixin.qq.com/s/a".toList
    content_text := "hi".toList
    word_count := 100
    images := [{ index := 0, url := "http://mmbiz.qpic.cn/a".toList, alt := [] }] }

/-- The C1 witness crawl oracle: URL `"a"` succeeds, everything else fails
with message `"boom"`. -/
def crawlW : PyStr → Except PyStr ArticleContent := fun u =>
  if u = "a".toList then .ok artA else .error "boom".toList

/-- The C1 witness URL list: one success, one failure. -/
def urlsW : List PyStr := ["a".toList, "b".toList]

/-- The C3 witness URL list of length 1. -/
def urls1 : List PyStr := ["https://mp.weixin.qq.com/s/only".toList]

/-- A crawl oracle for C3's witness; it is never invoked. -/
def crawlNone : PyStr → Except PyStr ArticleContent := fun _ =>
  .error "unused".toList

/-- A concrete Selenium page used by the C10 witness. -/
def selPageW : SelPage :=
  { urlValid := true, hasContent := true, query := fun _ => none
    contentHtml := some [], contentText := some "hi".toList
    imgs := [{ dataSrc := some "http://mmbiz.qpic.cn/img".toList, src := none, alt := none }]
    downloadOk := fun _ => true, downloadContentType := fun _ => []
    hashDirName := "abcd1234".toList, timestamp := [] }

/-! # Claims -/

/-! ## C2 — `sanitize_path`

The claim is *corrected*: a label made only of `.`, `/` or `\` (for example
`"."`) is punctuation-only yet sanitizes to underscores, not to the
`"unnamed"` placeholder, because the first substitution turns the separators
into `_`, which the second substitution keeps. -/

/-- C2 counterexample: the all-punctuation label `"."` sanitizes to `"_"`,
not to the placeholder `"unnamed"`, refuting the claim that every empty or
punctuation-only label yields the placeholder. -/
theorem c2_counterexample :
    sanitize_path ['.'] = ['_'] ∧ ('.' : Char).isAlphanum = false ∧
      sanitize_path ['.'] ≠ "unnamed".toList := by decide

/-- C2 (amended): sanitizing `"../../etc/passwd"` yields a string free of
`.`, `/` and `\`; a label that is empty or consists only of characters that
are neither in `[a-zA-Z0-9_-]` nor separators (`.`, `/`, `\`) yields the
fixed placeholder `"unnamed"`; and every result is non-empty of length at
most 100. -/
theorem c2_sanitize_path_amended :
    (∀ c ∈ sanitize_path "../../etc/passwd".toList, c ≠ '.' ∧ c ≠ '/' ∧ c ≠ '\\') ∧
    (∀ name : PyStr,
      (name = [] ∨ ∀ c ∈ name, isKeptChar c = false ∧ isSepChar c = false) →
      sanitize_path name = "unnamed".toList) ∧
    (∀ name : PyStr, sanitize_path name ≠ [] ∧ (sanitize_path name).length ≤ 100) := by
  refine ⟨by decide, ?_, ?_⟩
  · intro name h
    show (if (name.map fun c => if isSepChar c then '_' else c).filter isKeptChar ≠ []
      then _ else "unnamed".toList) = "unnamed".toList
    have h2 : (name.map fun c => if isSepChar c then '_' else c).filter isKeptChar = [] := by
      rw [List.filter_eq_nil_iff]
      intro a ha
      rw [List.mem_map] at ha
      obtain ⟨c, hc, rfl⟩ := ha
      rcases h with h | h
      · subst h; simp at hc
      · obtain ⟨hk, hs⟩ := h c hc
        rw [hs]
        simp [hk]
    rw [h2]
    simp
  · intro name
    have hs : sanitize_path name =
        if (name.map fun c => if isSepChar c then '_' else c).filter isKeptChar ≠ []
        then ((name.map fun c => if isSepChar c then '_' else c).filter isKeptChar).take 100
        else "unnamed".toList := rfl
    rw [hs]
    by_cases h : (name.map fun c => if isSepChar c then '_' else c).filter isKeptChar = []
    · rw [h]
      decide
    · rw [if_pos h]
      constructor
      · intro htake
        have hlen := congrArg List.length htake
        rw [List.length_take] at hlen
        simp only [List.length_nil, Nat.min_eq_zero_iff] at hlen
        rcases hlen with hlen | hlen
        · omega
        · exact h (List.length_eq_zero.mp hlen)
      · rw [List.length_take]
        exact min_le_left _ _

/-- C2 witness for the amended theorem: the all-punctuation label `"!!!"`
(which contains no separator and no kept character) sanitizes to the
placeholder. -/
theorem c2_witness :
    (("!!!".toList : PyStr) = [] ∨
      ∀ c ∈ ("!!!".toList : PyStr), isKeptChar c = false ∧ isSepChar c = false) ∧
    sanitize_path "!!!".toList = "unnamed".toList :=
  ⟨Or.inr (by decide),
    c2_sanitize_path_amended.2.1 "!!!".toList (Or.inr (by decide))⟩

/-! ## C5 — `summarize_article.first_300_chars` -/

/-- C5 (confirmed): `first_300_chars` is the unmodified `content_text`
whenever its length is at most 300, is the first 300 characters followed by
the three-character ellipsis whenever it is longer, and in all cases has
length at most 303. -/
theorem c5_first_300_chars (a : ArticleContent) :
    ((summarize_article a).first_300_chars).length ≤ 303 ∧
    (a.content_text.length ≤ 300 →
      (summarize_article a).first_300_chars = a.content_text) ∧
    (300 < a.content_text.length →
      (summarize_article a).first_300_chars =
        a.content_text.take 300 ++ "...".toList) := by
  have hf : (summarize_article a).first_300_chars =
      if 300 < a.content_text.length then a.content_text.take 300 ++ "...".toList
      else a.content_text := rfl
  rw [hf]
  by_cases h : 300 < a.content_text.length
  · rw [if_pos h]
    refine ⟨?_, fun hle => absurd hle (by omega), fun _ => rfl⟩
    rw [List.length_append, List.length_take]
    have h3 : ("...".toList).length = 3 := rfl
    omega
  · rw [if_neg h]
    exact ⟨by omega, fun _ => rfl, fun hlt => absurd hlt h⟩

/-- C5 witness: on a concrete five-character article the summary returns the
text verbatim. -/
theorem c5_witness :
    artShort.content_text.length ≤ 300 ∧
      (summarize_article artShort).first_300_chars = artShort.content_text :=
  ⟨by decide, (c5_first_300_chars artShort).2.1 (by decide)⟩

/-! ## C6 — `estimated_read_time_minutes` -/

/-- C6 (confirmed): the analyzer's estimated read time is
`round(word_count / 200, 1)` — the word count divided by the constant
`READING_SPEED_CPM = 200` and rounded (half to even) to one decimal place.
Python's float representation of the quotient is idealised as the exact
rational. -/
theorem c6_read_time (a : ArticleContent) :
    (analyze_article a).estimated_read_time_minutes =
      pyRound1 ((a.word_count : ℚ) / 200) ∧ READING_SPEED_CPM = 200 := by
  refine ⟨?_, rfl⟩
  simp [analyze_article, READING_SPEED_CPM]

/-! ## C4 — the failure kind on a blocked page

The claim is *corrected*: `WeixinSpiderAB.crawl` raises a plain
`RuntimeError` on a challenge page — the very same exception type it raises
when the `open` command fails — so there is no distinct `BlockedError` kind;
the two failures differ only in their message text. -/

/-- C4 counterexample: on a page whose body carries the marker `环境异常`
the crawl fails with a `RuntimeError`, whose type name equals the type name
of the backend (`open`) failure and is not `"BlockedError"`. -/
theorem c4_counterexample :
    crawlAB "https://mp.weixin.qq.com/s/x".toList blockedEnv =
      .error (.runtimeError antiBotMsg) ∧
    (PyExc.runtimeError antiBotMsg).typeName = "RuntimeError".toList ∧
    crawlAB "https://mp.weixin.qq.com/s/x".toList openFailEnv =
      .error (.runtimeError ("Failed to open URL: boom".toList)) ∧
    (PyExc.runtimeError ("Failed to open URL: boom".toList)).typeName =
      (PyExc.runtimeError antiBotMsg).typeName ∧
    "RuntimeError".toList ≠ "BlockedError".toList := by decide

/-- C4 (amended): a recognized challenge marker in the body text makes the
crawl fail with `RuntimeError` carrying the fixed anti-bot message — an
error distinguishable from the open-failure `RuntimeError` only by message
prefix, not by exception type. -/
theorem c4_blocked_amended (url : PyStr) (env : ABEnv)
    (hv : env.urlValid = true) (ho : env.openOk = true)
    (hm : hasMarker (env.text "body".toList) = true) :
    crawlAB url env = .error (.runtimeError antiBotMsg) ∧
    "WeChat anti-bot verification detected".toList.isPrefixOf antiBotMsg = true ∧
    (∀ out : PyStr,
      "WeChat anti-bot verification detected".toList.isPrefixOf
        ("Failed to open URL: ".toList ++ out) = false) := by
  refine ⟨?_, by decide, fun out => rfl⟩
  simp [crawlAB, hv, ho]
  exact hm

/-! ## Helper lemmas about the two image-extraction loops -/

/-- Unfolding lemma: one step of the full-browser extraction loop, phrased
through the `includedSel` guard. -/
theorem extractImgsAux_cons (i : Nat) (img : ImgElem) (rest : List ImgElem) :
    extractImgsAux i (img :: rest) =
      if includedSel img then
        { index := i, url := (pyOrOpt img.dataSrc img.src).getD [],
          alt := img.alt.getD [] } :: extractImgsAux (i + 1) rest
      else extractImgsAux (i + 1) rest := by
  cases hres : pyOrOpt img.dataSrc img.src with
  | none => simp [extractImgsAux, includedSel, hres]
  | some s =>
    by_cases hg : (s ≠ [] && !("data:".toList.isPrefixOf s)) = true
    · simp [extractImgsAux, includedSel, hres, hg]
    · simp [extractImgsAux, includedSel, hres, hg]

/-- Every recorded index is at least the loop counter. -/
theorem extractImgsAux_index_ge (imgs : List ImgElem) :
    ∀ i : Nat, ∀ e ∈ extractImgsAux i imgs, i ≤ e.index := by
  induction imgs with
  | nil => intro i e he; simp [extractImgsAux] at he
  | cons img rest ih =>
    intro i e he
    rw [extractImgsAux_cons] at he
    by_cases h : includedSel img = true
    · rw [if_pos h] at he
      rcases List.mem_cons.mp he with rfl | he
      · exact Nat.le_refl _
      · exact Nat.le_trans (Nat.le_succ i) (ih (i + 1) e he)
    · rw [if_neg h] at he
      exact Nat.le_trans (Nat.le_succ i) (ih (i + 1) e he)

/-- The recorded indices are strictly increasing. -/
theorem extractImgsAux_chain (imgs : List ImgElem) :
    ∀ i : Nat, List.Chain' (fun a b => a.index < b.index) (extractImgsAux i imgs) := by
  induction imgs with
  | nil => intro i; simp [extractImgsAux]
  | cons img rest ih =>
    intro i
    rw [extractImgsAux_cons]
    by_cases h : includedSel img = true
    · rw [if_pos h]
      refine List.Chain'.cons' (ih (i + 1)) ?_
      intro b hb
      have hmem : b ∈ extractImgsAux (i + 1) rest := List.mem_of_mem_head? hb
      have hge := extractImgsAux_index_ge rest (i + 1) b hmem
      exact Nat.lt_of_lt_of_le (Nat.lt_succ_self i) hge
    · rw [if_neg h]
      exact ih (i + 1)

/-- When no element is skipped, the indices are exactly
`i, i+1, …, i+len-1`. -/
theorem extractImgsAux_map_index (imgs : List ImgElem) :
    ∀ i : Nat, (∀ img ∈ imgs, includedSel img = true) →
      (extractImgsAux i imgs).map (fun e => e.index) = List.range' i imgs.length := by
  induction imgs with
  | nil => intro i _; rfl
  | cons img rest ih =>
    intro i h
    rw [extractImgsAux_cons, if_pos (h img (List.mem_cons_self _ _))]
    simp only [List.map_cons]
    rw [ih (i + 1) fun x hx => h x (List.mem_cons_of_mem _ hx)]
    rfl

/-- The full-browser extraction yields one entry per element that passes the
source guard. -/
theorem extractImgsAux_length (imgs : List ImgElem) :
    ∀ i : Nat, (extractImgsAux i imgs).length = (imgs.filter includedSel).length := by
  induction imgs with
  | nil => intro i; rfl
  | cons img rest ih =>
    intro i
    rw [extractImgsAux_cons]
    by_cases h : includedSel img = true
    · rw [if_pos h, List.filter_cons_of_pos h]
      simp [ih (i + 1)]
    · rw [if_neg h, List.filter_cons_of_neg (by simpa using h)]
      exact ih (i + 1)

/-- URL-only extraction never sets a `local_path`. -/
theorem extractImgsAux_local_path (imgs : List ImgElem) :
    ∀ i : Nat, ∀ e ∈ extractImgsAux i imgs, e.local_path = none := by
  induction imgs with
  | nil => intro i e he; simp [extractImgsAux] at he
  | cons img rest ih =>
    intro i e he
    rw [extractImgsAux_cons] at he
    by_cases h : includedSel img = true
    · rw [if_pos h] at he
      rcases List.mem_cons.mp he with rfl | he
      · rfl
      · exact ih (i + 1) e he
    · rw [if_neg h] at he
      exact ih (i + 1) e he

/-- The code's `a or b` source resolution coincides with the claim's
"data-src when present and non-empty, else src" rule. -/
theorem pyOrOpt_eq_specResolve (a b : Option PyStr) :
    pyOrOpt a b = specResolve a b := by
  cases a with
  | none => rfl
  | some s =>
    by_cases h : s = []
    · simp [pyOrOpt, specResolve, h]
    · simp [pyOrOpt, specResolve, h]

/-- The full-browser loop equals the claim's loop. -/
theorem extractSel_eq_spec (imgs : List ImgElem) :
    ∀ i : Nat, extractImgsAux i imgs = specExtractSelAux i imgs := by
  induction imgs with
  | nil => intro i; rfl
  | cons img rest ih =>
    intro i
    cases hres : specResolve img.dataSrc img.src with
    | none =>
      simp [extractImgsAux, specExtractSelAux, pyOrOpt_eq_specResolve, hres, ih]
    | some s =>
      simp [extractImgsAux, specExtractSelAux, pyOrOpt_eq_specResolve, hres, ih]

/-! ## C7 — image index contiguity

The claim is *corrected*: the recorded `index` is the element's position
among *all* `<img>` elements (Python's `enumerate` counter), so a skipped
element (placeholder source) leaves a gap; indices are strictly increasing
but contiguous-from-0 only when nothing is skipped. -/

/-- C7 counterexample: a completed crawl of a page whose first `<img>` is
skipped (a `data:` source) produces an article whose single image entry has
`index = 1` at list position 0, refuting `images[i].index == i`. -/
theorem c7_counterexample :
    crawlSel "https://mp.weixin.qq.com/s/x".toList c7Page false none = .ok c7Article ∧
    c7Article.images.map (fun e => e.index) = [1] ∧
    ¬(∀ p ∈ c7Article.images.enum, p.2.index = p.1) := by decide

/-- C7 (amended): the index fields of an extracted image list are strictly
increasing, and they are contiguous starting at 0 (`images[i].index == i`)
when no page element was skipped by the source guard. -/
theorem c7_image_indices_amended (imgs : List ImgElem) :
    List.Chain' (fun a b => a.index < b.index) (extract_image_urls imgs) ∧
    ((∀ img ∈ imgs, includedSel img = true) →
      (extract_image_urls imgs).map (fun e => e.index) = List.range imgs.length) := by
  constructor
  · exact extractImgsAux_chain imgs 0
  · intro h
    rw [List.range_eq_range']
    exact extractImgsAux_map_index imgs 0 h

/-- C7 witness: on two elements that both pass the guard the indices are
exactly `[0, 1]`. -/
theorem c7_witness :
    (∀ img ∈ c7GoodImgs, includedSel img = true) ∧
      (extract_image_urls c7GoodImgs).map (fun e => e.index) =
        List.range c7GoodImgs.length :=
  ⟨by decide, (c7_image_indices_amended c7GoodImgs).2 (by decide)⟩

/-! ## C8 — the 20-image cap of the lightweight backend -/

/-- C8 (confirmed): the agent-browser extraction returns at most 20 entries
whatever the page holds, while the Selenium extraction returns exactly one
entry per element passing the source guard, with no upper bound. -/
theorem c8_image_count_bounds :
    (∀ env : ABImgEnv, (extract_image_urls_ab env).length ≤ 20) ∧
    (∀ imgs : List ImgElem,
      (extract_image_urls imgs).length = (imgs.filter includedSel).length) := by
  constructor
  · intro env
    cases h : env.countOk with
    | false => simp [extract_image_urls_ab, h]
    | true =>
      simp only [extract_image_urls_ab, h, Bool.not_true, Bool.false_eq_true,
        if_false]
      refine Nat.le_trans (List.length_filterMap_le _ _) ?_
      rw [List.length_range]
      exact Nat.min_le_right _ _
  · intro imgs
    exact extractImgsAux_length imgs 0

/-! ## C9 — data-src / src fallback

The claim is *corrected*: the Selenium backend does resolve `data-src`
first with an `src` fallback and discards `data:` placeholders, but the
agent-browser backend queries *only* `data-src` — an element whose
`data-src` is empty yields no entry even when its `src` attribute holds a
real URL. -/

/-- C9 counterexample: on an element with empty `data-src` and a real DOM
`src`, the agent-browser extraction returns nothing, while the claimed
fallback rule predicts one entry taken from `src`. -/
theorem c9_counterexample :
    extract_image_urls_ab c9Env = [] ∧
    specPredictedAB c9Env =
      [{ index := 0, url := "http://mmbiz.qpic.cn/x".toList, alt := [] }] ∧
    extract_image_urls_ab c9Env ≠ specPredictedAB c9Env := by decide

/-- C9 (amended): the full-browser extraction follows the claimed
resolution rule exactly (data-src first, src fallback, `data:` discarded);
the agent-browser extraction records only `data-src` query results — every
entry's URL is its element's `data-src` value, and the extraction result is
unchanged under any change of the DOM `src` attributes. -/
theorem c9_source_resolution_amended :
    (∀ imgs : List ImgElem, extract_image_urls imgs = specExtractSel imgs) ∧
    (∀ env : ABImgEnv, ∀ e ∈ extract_image_urls_ab env,
      env.attr e.index = some e.url) ∧
    (∀ env : ABImgEnv, ∀ f : Nat → Option PyStr,
      extract_image_urls_ab { env with domSrc := f } = extract_image_urls_ab env) := by
  refine ⟨fun imgs => extractSel_eq_spec imgs 0, ?_, ?_⟩
  · intro env e he
    unfold extract_image_urls_ab at he
    cases h : env.countOk with
    | false => rw [h] at he; simp at he
    | true =>
      rw [h] at he
      simp only [Bool.not_true, Bool.false_eq_true, if_false] at he
      rcases List.mem_filterMap.mp he with ⟨i, _, hf⟩
      cases hattr : env.attr i with
      | none => rw [hattr] at hf; simp at hf
      | some s =>
        simp only [hattr] at hf
        by_cases hg : (s ≠ [] && !("data:".toList.isPrefixOf s)) = true
        · rw [if_pos hg] at hf
          obtain rfl := Option.some.inj hf
          exact hattr
        · rw [if_neg hg] at hf; simp at hf
  · intro env f
    cases env
    rfl

/-- C9 witness: a concrete entry produced by the agent-browser extraction
whose URL is its `data-src` query result. -/
theorem c9_witness :
    c9WEntry ∈ extract_image_urls_ab c9WEnv ∧
      c9WEnv.attr c9WEntry.index = some c9WEntry.url :=
  ⟨by decide, c9_source_resolution_amended.2.1 c9WEnv c9WEntry (by decide)⟩

/-! ## Helper lemmas about `compare_articles`'s entry list -/

/-- The non-success entries of the accumulated list are exactly one error
entry per failing URL, keyed by that URL, in input order. -/
theorem filter_not_hasSummary_map (crawl : PyStr → Except PyStr ArticleContent) :
    ∀ urls : List PyStr,
      (urls.map (compareEntryFor crawl)).filter (fun e => !hasSummary e) =
        urls.filterMap (errCase crawl) := by
  intro urls
  induction urls with
  | nil => rfl
  | cons u rest ih =>
    rw [List.map_cons]
    cases hc : crawl u with
    | ok a =>
      have h1 : compareEntryFor crawl u =
          .ok (summarize_article a) (analyze_article a) := by
        unfold compareEntryFor; rw [hc]
      have h2 : errCase crawl u = none := by unfold errCase; rw [hc]
      rw [h1, List.filter_cons_of_neg (by simp [hasSummary]),
        List.filterMap_cons_none h2]
      exact ih
    | error e =>
      have h1 : compareEntryFor crawl u = .err u e := by
        unfold compareEntryFor; rw [hc]
      have h2 : errCase crawl u = some (.err u e) := by unfold errCase; rw [hc]
      rw [h1, List.filter_cons_of_pos (by simp [hasSummary]),
        List.filterMap_cons_some h2, ih]

/-- The `"summary"`-bearing entries are exactly one success entry per
succeeding URL, in input order. -/
theorem filter_hasSummary_map (crawl : PyStr → Except PyStr ArticleContent) :
    ∀ urls : List PyStr,
      (urls.map (compareEntryFor crawl)).filter hasSummary =
        urls.filterMap (okCase crawl) := by
  intro urls
  induction urls with
  | nil => rfl
  | cons u rest ih =>
    rw [List.map_cons]
    cases hc : crawl u with
    | ok a =>
      have h1 : compareEntryFor crawl u =
          .ok (summarize_article a) (analyze_article a) := by
        unfold compareEntryFor; rw [hc]
      have h2 : okCase crawl u =
          some (.ok (summarize_article a) (analyze_article a)) := by
        unfold okCase; rw [hc]
      rw [h1, List.filter_cons_of_pos (by simp [hasSummary]),
        List.filterMap_cons_some h2, ih]
    | error e =>
      have h1 : compareEntryFor crawl u = .err u e := by
        unfold compareEntryFor; rw [hc]
      have h2 : okCase crawl u = none := by unfold okCase; rw [hc]
      rw [h1, List.filter_cons_of_neg (by simp [hasSummary]),
        List.filterMap_cons_none h2]
      exact ih

/-- `"analysis" in a` selects the same entries as `"summary" in a`. -/
theorem filter_hasAnalysis_map (crawl : PyStr → Except PyStr ArticleContent) :
    ∀ urls : List PyStr,
      (urls.map (compareEntryFor crawl)).filter hasAnalysis =
        urls.filterMap (okCase crawl) := by
  intro urls
  induction urls with
  | nil => rfl
  | cons u rest ih =>
    rw [List.map_cons]
    cases hc : crawl u with
    | ok a =>
      have h1 : compareEntryFor crawl u =
          .ok (summarize_article a) (analyze_article a) := by
        unfold compareEntryFor; rw [hc]
      have h2 : okCase crawl u =
          some (.ok (summarize_article a) (analyze_article a)) := by
        unfold okCase; rw [hc]
      rw [h1, List.filter_cons_of_pos (by simp [hasAnalysis]),
        List.filterMap_cons_some h2, ih]
    | error e =>
      have h1 : compareEntryFor crawl u = .err u e := by
        unfold compareEntryFor; rw [hc]
      have h2 : okCase crawl u = none := by unfold okCase; rw [hc]
      rw [h1, List.filter_cons_of_neg (by simp [hasAnalysis]),
        List.filterMap_cons_none h2]
      exact ih

/-- Each success entry's `word_count` is its article's `word_count`. -/
theorem okCase_map_wc (crawl : PyStr → Except PyStr ArticleContent) :
    ∀ urls : List PyStr,
      (urls.filterMap (okCase crawl)).map entryWC =
        (successArticles crawl urls).map fun a => a.word_count := by
  intro urls
  induction urls with
  | nil => rfl
  | cons u rest ih =>
    unfold successArticles
    unfold successArticles at ih
    cases hc : crawl u with
    | ok a =>
      have h2 : okCase crawl u =
          some (.ok (summarize_article a) (analyze_article a)) := by
        unfold okCase; rw [hc]
      have h3 : (crawl u).toOption = some a := by rw [hc]; rfl
      rw [List.filterMap_cons_some h2,
        @List.filterMap_cons_some _ _ (fun v => (crawl v).toOption) u rest a h3,
        List.map_cons, List.map_cons, ih]
      rfl
    | error e =>
      have h2 : okCase crawl u = none := by unfold okCase; rw [hc]
      have h3 : (crawl u).toOption = none := by rw [hc]; rfl
      rw [List.filterMap_cons_none h2,
        @List.filterMap_cons_none _ _ (fun v => (crawl v).toOption) u rest h3]
      exact ih

/-- One success entry per successfully crawled URL. -/
theorem okCase_length (crawl : PyStr → Except PyStr ArticleContent) :
    ∀ urls : List PyStr,
      (urls.filterMap (okCase crawl)).length = (successArticles crawl urls).length := by
  intro urls
  induction urls with
  | nil => rfl
  | cons u rest ih =>
    unfold successArticles
    unfold successArticles at ih
    cases hc : crawl u with
    | ok a =>
      have h2 : okCase crawl u =
          some (.ok (summarize_article a) (analyze_article a)) := by
        unfold okCase; rw [hc]
      have h3 : (crawl u).toOption = some a := by rw [hc]; rfl
      rw [List.filterMap_cons_some h2,
        @List.filterMap_cons_some _ _ (fun v => (crawl v).toOption) u rest a h3,
        List.length_cons, List.length_cons, ih]
    | error e =>
      have h2 : okCase crawl u = none := by unfold okCase; rw [hc]
      have h3 : (crawl u).toOption = none := by rw [hc]; rfl
      rw [List.filterMap_cons_none h2,
        @List.filterMap_cons_none _ _ (fun v => (crawl v).toOption) u rest h3]
      exact ih

/-! ## C1 — partial-failure semantics of `compare_articles` -/

/-- C1 (confirmed): for 2–5 URLs the comparison always completes with a full
report: one error entry per failing URL keyed by that URL, exactly the
success entries in each ranking, and the average word count equal to the
successes' total divided by `max(#successes, 1)` — never a zero
denominator. -/
theorem c1_compare_partial_failure (crawl : PyStr → Except PyStr ArticleContent)
    (urls : List PyStr) (h2 : 2 ≤ urls.length) (h5 : urls.length ≤ 5) :
    C1Concl crawl urls := by
  have hnot2 : ¬urls.length < 2 := by omega
  have hnot5 : ¬5 < urls.length := by omega
  unfold C1Concl compare_articles
  rw [if_neg hnot2, if_neg hnot5]
  refine ⟨_, rfl, ?_, ?_, ?_, ?_, ?_⟩
  · exact filter_not_hasSummary_map crawl urls
  · rw [← filter_hasSummary_map crawl urls]
    exact List.perm_insertionSort _ _
  · rw [← filter_hasSummary_map crawl urls]
    exact List.perm_insertionSort _ _
  · exact congrArg List.length (filter_hasSummary_map crawl urls)
  · show (((((urls.map (compareEntryFor crawl)).filter hasAnalysis).map entryWC).sum : Nat) : ℚ) /
        ((max ((urls.map (compareEntryFor crawl)).filter hasAnalysis).length 1 : Nat) : ℚ) = _
    rw [filter_hasAnalysis_map crawl urls, okCase_map_wc crawl urls,
      okCase_length crawl urls]

/-- C1 witness: two URLs, one succeeding and one failing, are in bounds and
satisfy the conclusion. -/
theorem c1_witness : 2 ≤ urlsW.length ∧ urlsW.length ≤ 5 ∧ C1Concl crawlW urlsW :=
  ⟨by decide, by decide,
    c1_compare_partial_failure crawlW urlsW (by decide) (by decide)⟩

/-! ## C3 — batch-size validation happens before any backend work -/

/-- C3 (confirmed): a URL list shorter than 2 or longer than 5 yields a
validation-error object with no crawl call and no spider acquisition. -/
theorem c3_out_of_bounds_no_crawl (crawl : PyStr → Except PyStr ArticleContent)
    (urls : List PyStr) (h : urls.length < 2 ∨ 5 < urls.length) :
    C3Concl crawl urls := by
  unfold C3Concl compare_articles
  rcases h with h | h
  · rw [if_pos h]
    exact ⟨rfl, rfl, _, rfl⟩
  · have hn : ¬urls.length < 2 := by omega
    rw [if_neg hn, if_pos h]
    exact ⟨rfl, rfl, _, rfl⟩

/-- C3 witness: a single-URL list is rejected without any crawl attempt. -/
theorem c3_witness : (urls1.length < 2 ∨ 5 < urls1.length) ∧ C3Concl crawlNone urls1 :=
  ⟨Or.inl (by decide), c3_out_of_bounds_no_crawl crawlNone urls1 (Or.inl (by decide))⟩

/-! ## C10 — double gating of image downloads in `crawl_weixin_article` -/

/-- C10 (confirmed): with the `DOWNLOAD_IMAGES` environment flag false, a
call passing `download_images=True` still succeeds and returns the image
URL entries with no `local_path` on any of them; and whenever the caller
passes `download_images=False`, the computed output directory is `None`
regardless of `custom_filename` and of the environment flag. -/
theorem c10_download_gating (OUTPUT_DIR : PyStr) (p : SelPage) (url : PyStr)
    (cf : Option PyStr) (hv : p.urlValid = true) (hc : p.hasContent = true) :
    C10Concl OUTPUT_DIR p url cf := by
  constructor
  · unfold crawl_weixin_article crawlSel
    rw [hv, hc]
    refine ⟨_, rfl, rfl, ?_⟩
    exact fun e he => extractImgsAux_local_path p.imgs 0 e he
  · intro DI cf2
    show (match crawlSel url p (false && DI) none with
      | .ok article => ({ result := .ok article, output_dir := none } : ToolRun)
      | .error e => { result := .err e.msg e.typeName, output_dir := none }).output_dir
      = none
    cases crawlSel url p (false && DI) none <;> rfl

/-- C10 witness: the gating theorem applied to a concrete page with one
image and a custom label. -/
theorem c10_witness :
    selPageW.urlValid = true ∧ selPageW.hasContent = true ∧
      C10Concl "./downloads".toList selPageW "https://mp.weixin.qq.com/s/x".toList
        (some "my label".toList) :=
  ⟨rfl, rfl,
    c10_download_gating "./downloads".toList selPageW
      "https://mp.weixin.qq.com/s/x".toList (some "my label".toList) rfl rfl⟩

/-- C4 witness: the amended theorem applied to the concrete blocked page. -/
theorem c4_witness :
    blockedEnv.urlValid = true ∧ blockedEnv.openOk = true ∧
    hasMarker (blockedEnv.text "body".toList) = true ∧
    crawlAB "https://mp.weixin.qq.com/s/x".toList blockedEnv =
      .error (.runtimeError antiBotMsg) :=
  ⟨rfl, rfl, by decide,
    (c4_blocked_amended "https://mp.weixin.qq.com/s/x".toList blockedEnv rfl rfl
      (by decide)).1⟩
